import Mathlib

/-!
Verification development for `src/jira/jira-issues-to-dust.ts`, a one-file
ETL pipeline: a paginated Jira fetch loop with 429-aware retry
(`getIssuesUpdatedLast24Hours` / `makeRequest`), a pure document formatter
(`formatDescription`, `formatComments` and the `content` template inside
`upsertToDustDatasource`), and a rate-limited delivery stage (`main` with a
Bottleneck limiter).  The definitions below are a shallow embedding of that
file: machine state that the TypeScript mutates (the accumulator, `startAt`,
`total`) is passed explicitly, network calls are modelled by an explicit
server/destination oracle, and console output that matters for the claims is
collected in result structures.
-/

namespace JiraToDust

/-! ## Data model (the `JiraIssue` interface, lines 65-151 of the source)

Wrapper objects that carry a single field (`{ name: string }` and similar)
are kept as one-field structures so that every access path in the source
(`issue.fields.issuetype.name`, `issue.fields.votes.votes`, ...) has a
direct counterpart here. -/

structure Person where
  displayName : String
  emailAddress : String
deriving Repr, DecidableEq

/-- A `{ name: string }` wrapper (issuetype, status, priority, resolution,
sprint, epic, components, fixVersions, versions elements). -/
structure NameField where
  name : String
deriving Repr, DecidableEq

structure ProjectField where
  key : String
  name : String
deriving Repr, DecidableEq

/-- A `{ summary: string }` field bag, as used inside subtasks and linked
issues. -/
structure SummaryField where
  summary : String
deriving Repr, DecidableEq

structure Subtask where
  key : String
  fields : SummaryField
deriving Repr, DecidableEq

structure LinkType where
  name : String
  inward : String
  outward : String
deriving Repr, DecidableEq

structure LinkedIssue where
  key : String
  fields : SummaryField
deriving Repr, DecidableEq

structure IssueLink where
  type : LinkType
  inwardIssue : Option LinkedIssue
  outwardIssue : Option LinkedIssue
deriving Repr, DecidableEq

structure Attachment where
  filename : String
  content : String
deriving Repr, DecidableEq

/-- One leaf text run of the Atlassian rich-text document format. -/
structure TextRun where
  text : String
deriving Repr, DecidableEq

/-- One block of a description document; the source reads it with
`c.content?.map(...)`, so the inner array may be absent at runtime. -/
structure DescBlock where
  content : Option (List TextRun)
deriving Repr, DecidableEq

/-- The description document; the source reads it with
`description?.content`, so the whole document may be absent at runtime
even though the interface declares it. -/
structure DescriptionDoc where
  content : List DescBlock
deriving Repr, DecidableEq

/-- One block of a comment body (read without optional chaining). -/
structure CommentBlock where
  content : List TextRun
deriving Repr, DecidableEq

structure CommentBody where
  content : List CommentBlock
deriving Repr, DecidableEq

structure JiraComment where
  author : Person
  created : String
  body : CommentBody
deriving Repr, DecidableEq

structure CommentField where
  comments : List JiraComment
deriving Repr, DecidableEq

structure Votes where
  votes : Int
deriving Repr, DecidableEq

structure Watches where
  watchCount : Int
deriving Repr, DecidableEq

structure JiraFields where
  summary : String
  description : Option DescriptionDoc
  issuetype : NameField
  status : NameField
  priority : NameField
  assignee : Option Person
  reporter : Person
  project : ProjectField
  created : String
  updated : String
  resolutiondate : Option String
  resolution : Option NameField
  labels : List String
  components : List NameField
  sprint : Option NameField
  epic : Option NameField
  timeoriginalestimate : Option Int
  timeestimate : Option Int
  timespent : Option Int
  votes : Votes
  watches : Watches
  fixVersions : List NameField
  versions : List NameField
  subtasks : List Subtask
  issuelinks : List IssueLink
  attachment : List Attachment
  comment : CommentField
deriving Repr, DecidableEq

structure JiraIssue where
  id : String
  key : String
  self : String
  fields : JiraFields
deriving Repr, DecidableEq

/-! ## Document formatter (source lines 246-329) -/

/-- `formatDescription` (lines 246-254):
`description?.content.map(c => c.content?.map(cc => cc.text).join("")).join("\n") || ""`.
An absent document gives `undefined || ""` = `""`; an absent inner array
makes that element `undefined`, which `Array.prototype.join` renders as the
empty string. -/
def formatDescription (d : Option DescriptionDoc) : String :=
  match d with
  | none => ""
  | some doc =>
    String.intercalate "\n" (doc.content.map fun c =>
      match c.content with
      | none => ""
      | some runs => String.join (runs.map TextRun.text))

/-- `formatComments` (lines 256-271): each comment renders as
newline, `[created] Author: name (email)`, newline, flattened body,
newline; the comment blocks are then joined with newlines. -/
def formatComments (comments : List JiraComment) : String :=
  String.intercalate "\n" (comments.map fun comment =>
    "\n[" ++ comment.created ++ "] Author: " ++ comment.author.displayName
      ++ " (" ++ comment.author.emailAddress ++ ")\n"
      ++ String.intercalate "\n" (comment.body.content.map fun c =>
          String.join (c.content.map TextRun.text))
      ++ "\n")

/-- JavaScript `str || "N/A"` on a nullable string: `null` and the empty
string are both falsy (used for `resolutiondate`, line 300). -/
def jsStrOrNA (s : Option String) : String :=
  match s with
  | none => "N/A"
  | some s => if s = "" then "N/A" else s

/-- JavaScript `num || "N/A"` on a nullable number: `null` and `0` are both
falsy (used for the three time-tracking fields, lines 306-308). -/
def jsNumOrNA (n : Option Int) : String :=
  match n with
  | none => "N/A"
  | some n => if n = 0 then "N/A" else toString n

/-- `issue.fields.assignee ? displayName (emailAddress) : "Unassigned"`
(lines 286-290). -/
def assigneeText (a : Option Person) : String :=
  match a with
  | some a => a.displayName ++ " (" ++ a.emailAddress ++ ")"
  | none => "Unassigned"

/-- `issue.fields.resolution ? issue.fields.resolution.name : "Unresolved"`
(lines 297-299). -/
def resolutionText (r : Option NameField) : String :=
  match r with
  | some r => r.name
  | none => "Unresolved"

/-- `x ? x.name : "N/A"` for sprint and epic (lines 303-304). -/
def nameOrNA (x : Option NameField) : String :=
  match x with
  | some x => x.name
  | none => "N/A"

/-- One issue link rendered as in lines 316-324:
`inwardIssue || outwardIssue`, then `type.name key: summary`, else `""`. -/
def linkText (link : IssueLink) : String :=
  match (match link.inwardIssue with
         | some i => some i
         | none => link.outwardIssue) with
  | some li => link.type.name ++ " " ++ li.key ++ ": " ++ li.fields.summary
  | none => ""

/-- The template literal of lines 275-329, split at every literal newline of
the template.  Element 0 is the empty line after the opening backtick and
the last element is the two spaces before `.trim()`; interpolated values
(description, comments) may themselves contain newlines, so these are the
template's fixed line slots, not the text lines of the final document. -/
def contentLines (issue : JiraIssue) : List String :=
  [ ""
  , "Issue Key: " ++ issue.key
  , "ID: " ++ issue.id
  , "URL: " ++ issue.self
  , "Summary: " ++ issue.fields.summary
  , "Description:"
  , formatDescription issue.fields.description
  , ""
  , "Issue Type: " ++ issue.fields.issuetype.name
  , "Status: " ++ issue.fields.status.name
  , "Priority: " ++ issue.fields.priority.name
  , "Assignee: " ++ assigneeText issue.fields.assignee
  , "Reporter: " ++ issue.fields.reporter.displayName ++ " ("
      ++ issue.fields.reporter.emailAddress ++ ")"
  , "Project: " ++ issue.fields.project.name ++ " ("
      ++ issue.fields.project.key ++ ")"
  , "Created: " ++ issue.fields.created
  , "Updated: " ++ issue.fields.updated
  , "Resolution: " ++ resolutionText issue.fields.resolution
  , "Resolution Date: " ++ jsStrOrNA issue.fields.resolutiondate
  , "Labels: " ++ String.intercalate ", " issue.fields.labels
  , "Components: " ++ String.intercalate ", "
      (issue.fields.components.map NameField.name)
  , "Sprint: " ++ nameOrNA issue.fields.sprint
  , "Epic: " ++ nameOrNA issue.fields.epic
  , "Time Tracking:"
  , "  Original Estimate: " ++ jsNumOrNA issue.fields.timeoriginalestimate
  , "  Remaining Estimate: " ++ jsNumOrNA issue.fields.timeestimate
  , "  Time Spent: " ++ jsNumOrNA issue.fields.timespent
  , "Votes: " ++ toString issue.fields.votes.votes
  , "Watches: " ++ toString issue.fields.watches.watchCount
  , "Fix Versions: " ++ String.intercalate ", "
      (issue.fields.fixVersions.map NameField.name)
  , "Affected Versions: " ++ String.intercalate ", "
      (issue.fields.versions.map NameField.name)
  , "Subtasks: " ++ String.intercalate ", "
      (issue.fields.subtasks.map fun st => st.key ++ ": " ++ st.fields.summary)
  , "Issue Links: " ++ String.intercalate ", "
      ((issue.fields.issuelinks.map linkText).filter fun s => s != "")
  , "Attachments: " ++ String.intercalate ", "
      (issue.fields.attachment.map Attachment.filename)
  , ""
  , "Comments:"
  , formatComments issue.fields.comment.comments
  , "  " ]

/-- The `content` template string of `upsertToDustDatasource`
(lines 275-329), including the trailing `.trim()`. -/
def content (issue : JiraIssue) : String :=
  (String.intercalate "\n" (contentLines issue)).trim

/-- `const documentId = issue-issue.key` (line 274). -/
def documentId (issue : JiraIssue) : String :=
  "issue-" ++ issue.key

/-! ## Paginated fetcher (source lines 160-244)

The Jira endpoint is modelled as an oracle: `srv k startAt` is the response
to the k-th HTTP request the run issues (k counts every attempt, retries
included), whose body carries the current `startAt`.  Errors are summarised
by the fields the catch handlers inspect: whether
`axios.isAxiosError(error) && error.response` holds, `response.status`, and
the parsed `retry-after` header (`none` when the header is absent). -/

structure ErrInfo where
  axiosWithResponse : Bool
  status : Nat
  retryAfter : Option Nat
deriving Repr, DecidableEq

inductive JiraResp where
  | ok (issues : List JiraIssue) (total : Nat)
  | err (e : ErrInfo)
deriving Repr, DecidableEq

abbrev Server := Nat → Nat → JiraResp

instance {ε α : Type} [DecidableEq ε] [DecidableEq α] :
    DecidableEq (Except ε α) := fun a b =>
  match a, b with
  | .ok x, .ok y =>
    if h : x = y then .isTrue (by rw [h]) else .isFalse (by simp [h])
  | .error x, .error y =>
    if h : x = y then .isTrue (by rw [h]) else .isFalse (by simp [h])
  | .ok _, .error _ => .isFalse (by simp)
  | .error _, .ok _ => .isFalse (by simp)

/-- Outcome of one `makeRequest()` call: the value returned or error thrown,
the `startAt` carried by each HTTP request issued (retries re-send the same
`startAt`), and the seconds slept before each retry. -/
structure MkOutcome where
  result : Except ErrInfo (List JiraIssue × Nat)
  offsets : List Nat
  waits : List Nat
deriving Repr, DecidableEq

/-- `makeRequest` (lines 166-219).  The source recurses with
`retryCount + 1` under the guard `error.response.status === 429 &&
retryCount < 3`; here the count of retries still allowed
(`retriesLeft = 3 - retryCount`) decreases instead, which is the same
control flow in structurally recursive form.  On a retryable 429 the code
sleeps `parseInt(headers["retry-after"] || "60")` seconds
(`retryAfter.getD 60`) and re-requests the same page; any other error, or a
429 with retries exhausted, is thrown. -/
def makeRequestGo (srv : Server) (startAt : Nat) (base : Nat)
    (retriesLeft : Nat) : MkOutcome :=
  match srv base startAt, retriesLeft with
  | .ok issues total, _ => ⟨.ok (issues, total), [startAt], []⟩
  | .err e, n + 1 =>
    if e.axiosWithResponse = true ∧ e.status = 429 then
      let rest := makeRequestGo srv startAt (base + 1) n
      ⟨rest.result, startAt :: rest.offsets, e.retryAfter.getD 60 :: rest.waits⟩
    else
      ⟨.error e, [startAt], []⟩
  | .err e, 0 => ⟨.error e, [startAt], []⟩

/-- `makeRequest()` as called by the fetch loop: `retryCount` starts at 0,
so 3 retries (4 attempts) are available. -/
def makeRequest (srv : Server) (startAt : Nat) (base : Nat) : MkOutcome :=
  makeRequestGo srv startAt base 3

/-- The mutable state of `getIssuesUpdatedLast24Hours` (lines 161-164)
plus run observables: `reqBase` counts HTTP requests issued so far,
`requests` lists the `startAt` of every HTTP request issued, `waits` the
retry sleeps. -/
structure LoopState where
  allIssues : List JiraIssue
  startAt : Nat
  total : Nat
  reqBase : Nat
  requests : List Nat
  waits : List Nat
deriving Repr, DecidableEq

/-- What one fetch run produces.  `issues` is the value the TypeScript
function returns (`return allIssues`); `loggedError` is the error printed by
the `catch` block of the do-while loop (lines 229-238) - it is written to
the console only, never returned. -/
structure FetchResult where
  issues : List JiraIssue
  requests : List Nat
  waits : List Nat
  loggedError : Option ErrInfo
deriving Repr, DecidableEq

/-- `let allIssues = []; let startAt = 0; const maxResults = 50;
let total = 0;` (lines 161-164). -/
def initState : LoopState :=
  ⟨[], 0, 0, 0, [], []⟩

/-- The successful-iteration state update (lines 224-227): append the page,
record the latest reported total, advance `startAt` by `maxResults = 50`. -/
def advanceState (s : LoopState) (issues : List JiraIssue) (total : Nat)
    (offsets waits : List Nat) : LoopState :=
  { allIssues := s.allIssues ++ issues
    startAt := s.startAt + 50
    total := total
    reqBase := s.reqBase + offsets.length
    requests := s.requests ++ offsets
    waits := s.waits ++ waits }

/-- The do-while loop of lines 221-240, fuelled: `none` means the given
number of iterations did not reach the loop's exit (the source loop would
still be running).  The body runs at least once (do-while); on success it
repeats while `allIssues.length < total` with the latest reported total; on
a thrown error it logs and breaks, returning the accumulator as is. -/
def fetchLoop (srv : Server) : Nat → LoopState → Option FetchResult
  | 0, _ => none
  | fuel + 1, s =>
    let mk := makeRequest srv s.startAt s.reqBase
    match mk.result with
    | .ok (issues, total) =>
      let s' := advanceState s issues total mk.offsets mk.waits
      if s'.allIssues.length < total then
        fetchLoop srv fuel s'
      else
        some ⟨s'.allIssues, s'.requests, s'.waits, none⟩
    | .error e =>
      some ⟨s.allIssues, s.requests ++ mk.offsets, s.waits ++ mk.waits, some e⟩

/-- `getIssuesUpdatedLast24Hours` (lines 160-244): the caller receives only
the accumulated issue list. -/
def getIssuesUpdatedLast24Hours (srv : Server) (fuel : Nat) :
    Option (List JiraIssue) :=
  (fetchLoop srv fuel initState).map FetchResult.issues

/-! ## Rate-limited sink and orchestrator (source lines 273-368) -/

/-- The destination oracle: `dest issue` is `none` when the upsert POST for
that issue succeeds and `some msg` when it rejects with error `msg`. -/
abbrev Dest := JiraIssue → Option String

/-- What one `upsertToDustDatasource` call produces: the task's resolved
value or rethrown error, its console lines, and the documents POSTed
(identifier and body) - exactly one POST per call, there is no retry. -/
structure UpsertOutcome where
  result : Except String Unit
  console : List String
  posts : List (String × String)
deriving Repr, DecidableEq

/-- `upsertToDustDatasource` (lines 273-346): build `documentId` and
`content`, POST once; on success log the upsert, on failure log the error
with the issue key and rethrow (`throw error`, line 344). -/
def upsertToDustDatasource (dest : Dest) (issue : JiraIssue) : UpsertOutcome :=
  match dest issue with
  | none =>
    ⟨.ok (), ["Upserted issue " ++ issue.key ++ " to Dust datasource"],
      [(documentId issue, content issue)]⟩
  | some msg =>
    ⟨.error msg,
      ["Error upserting issue " ++ issue.key ++ " to Dust datasource:"],
      [(documentId issue, content issue)]⟩

/-- `true` iff the task resolved rather than rejected. -/
def taskOk (r : Except String Unit) : Bool :=
  match r with
  | .ok _ => true
  | .error _ => false

/-- The delivery stage of `main` (lines 360-362): one scheduled task per
fetched issue, each executing `upsertToDustDatasource` once.  Scheduled
tasks all run to completion: neither a sibling's rejection nor the
`Promise.all` aggregate rejecting cancels a Bottleneck-scheduled task. -/
def runDeliveries (dest : Dest) (issues : List JiraIssue) :
    List UpsertOutcome :=
  issues.map (upsertToDustDatasource dest)

/-- Observable outcome of one `main()` run. -/
structure MainReport where
  fetch : Option FetchResult
  outcomes : List UpsertOutcome
  console : List String
deriving Repr, DecidableEq

/-- `main` (lines 348-368): fetch, log the count, schedule one upsert per
issue, `await Promise.all`; if every task resolves log
`All issues processed successfully.`, otherwise the aggregate rejects and
the top-level catch logs `An error occurred:` (the first rejection; no
count of failures is computed anywhere).  Only the console lines of `main`
and of the upsert calls are modelled; interleaving order of concurrent
task logs is not. -/
def mainRun (srv : Server) (dest : Dest) (fuel : Nat) : MainReport :=
  match fetchLoop srv fuel initState with
  | none => ⟨none, [], []⟩
  | some fr =>
    let outcomes := runDeliveries dest fr.issues
    let anyFailed := outcomes.any fun o => !taskOk o.result
    ⟨some fr, outcomes,
      ("Found " ++ toString fr.issues.length
          ++ " issues updated in the last 24 hours.")
        :: (outcomes.map UpsertOutcome.console).flatten
        ++ [if anyFailed then "An error occurred:"
            else "All issues processed successfully."]⟩

/-! ## Rate limiter model

`const DUST_RATE_LIMIT = 120` (line 40); the Bottleneck limiter is built
with `maxConcurrent: DUST_RATE_LIMIT, minTime: (60 * 1000) /
DUST_RATE_LIMIT` (lines 355-358). -/

def DUST_RATE_LIMIT : Nat := 120

def limiterMinTime : Nat := (60 * 1000) / DUST_RATE_LIMIT

/-- Number of tasks in flight at millisecond `t`, for tasks whose start
times and durations are listed positionally. -/
def inFlightAt (starts durs : List Nat) (t : Nat) : Nat :=
  (starts.zip durs).countP fun sd => decide (sd.1 ≤ t) && decide (t < sd.1 + sd.2)

/-- Modelled from the spec: the Bottleneck rate limiter is an external
library whose code is not under `src/`; per the spec the sink delivers
"subject to a global ceiling of at most N deliveries per fixed time window
and at most N concurrently in flight".  A run's task launch times (listed
in launch order, Bottleneck launches one task at a time) are admissible
when consecutive launches are at least `minT` milliseconds apart and the
in-flight count never exceeds `maxConc`. -/
def Admissible (maxConc minT : Nat) (starts durs : List Nat) : Prop :=
  List.Chain' (fun a b => a + minT ≤ b) starts ∧
    ∀ t, inFlightAt starts durs t ≤ maxConc

/-! ## Concrete inputs used by witnesses and counterexamples -/

/-- A minimal issue with the given key and every optional field absent. -/
def mkSimpleIssue (k : String) : JiraIssue :=
  { id := k, key := k, self := "https://example.atlassian.net/" ++ k
    fields :=
    { summary := "sample summary"
      description := none
      issuetype := ⟨"Task"⟩
      status := ⟨"Open"⟩
      priority := ⟨"Low"⟩
      assignee := none
      reporter := ⟨"Rep Orter", "rep@example.com"⟩
      project := ⟨"PRJ", "Project"⟩
      created := "2026-01-01"
      updated := "2026-01-02"
      resolutiondate := none
      resolution := none
      labels := []
      components := []
      sprint := none
      epic := none
      timeoriginalestimate := none
      timeestimate := none
      timespent := none
      votes := ⟨0⟩
      watches := ⟨0⟩
      fixVersions := []
      versions := []
      subtasks := []
      issuelinks := []
      attachment := []
      comment := ⟨[]⟩ } }

def numberedIssue (n : Nat) : JiraIssue :=
  mkSimpleIssue ("DEMO-" ++ toString n)

/-- A well-behaved Jira instance holding `T` matching issues generated by
`gen`: every request at offset `startAt` returns the page
`gen startAt, ..., gen (startAt + pageLen - 1)` with `pageLen =
min 50 (T - startAt)` and reports total `T`. -/
def faithfulPage (gen : Nat → JiraIssue) (T startAt : Nat) : List JiraIssue :=
  (List.range (min 50 (T - startAt))).map fun i => gen (startAt + i)

def faithfulServer (gen : Nat → JiraIssue) (T : Nat) : Server :=
  fun _ startAt => .ok (faithfulPage gen T startAt) T

/-- Pages accumulated from a faithful server: the first `n` generated
issues. -/
def accumIssues (gen : Nat → JiraIssue) (n : Nat) : List JiraIssue :=
  (List.range n).map gen

/-- Number of page requests the loop makes against a faithful server with
total `T`: `ceil(T / 50)`, except that the do-while body always runs at
least once. -/
def pageRequestCount (T : Nat) : Nat :=
  max 1 ((T + 49) / 50)

/-- The result of a complete fetch against a faithful server. -/
def faithfulResult (gen : Nat → JiraIssue) (T : Nat) : FetchResult :=
  ⟨accumIssues gen T, (List.range (pageRequestCount T)).map fun j => 50 * j,
    [], none⟩

/-- The loop state after `k` completed iterations against a faithful server
(the `total` field, which the loop never reads, is a parameter). -/
def faithfulState (gen : Nat → JiraIssue) (T k t : Nat) : LoopState :=
  { allIssues := accumIssues gen (min (50 * k) T)
    startAt := 50 * k
    total := t
    reqBase := k
    requests := (List.range k).map fun j => 50 * j
    waits := [] }

/-- A non-429 HTTP failure (status 500). -/
def err500 : ErrInfo := ⟨true, 500, none⟩

/-- A 429 rate-limit response with no `retry-after` header. -/
def err429 : ErrInfo := ⟨true, 429, none⟩

/-- A server that answers every request with 429. -/
def srv429 : Server := fun _ _ => .err err429

/-- A server that answers the first request with a 429 carrying
`retry-after: 2` and every later request with a one-issue page. -/
def srv429Once : Server := fun k _ =>
  if k = 0 then .err ⟨true, 429, some 2⟩ else .ok [numberedIssue 7] 1

/-- A server whose single page holds one issue (clean complete run). -/
def cleanSrv : Server := fun _ _ => .ok [numberedIssue 1] 1

/-- A server that reports total 2, serves one issue on the first request,
then fails every later request with a 500. -/
def errSrv : Server := fun k _ =>
  if k = 0 then .ok [numberedIssue 1] 2 else .err err500

/-- A server that forever reports a positive total but returns empty
pages. -/
def emptyPagesServer : Server := fun _ _ => .ok [] 1

/-- A server with total 3 that returns one issue per page: pages shorter
than `maxResults`, exercising the fixed `startAt += 50` advance. -/
def shortPagesServer : Server := fun k _ => .ok [numberedIssue k] 3

/-- The claim-C10 progress hypothesis on a server: every successful
response returns at least one issue and reports a total of at most `B`. -/
def ServerProgresses (srv : Server) (B : Nat) : Prop :=
  ∀ k sa issues total, srv k sa = .ok issues total →
    issues ≠ [] ∧ total ≤ B

/-- A destination that accepts every upsert. -/
def destOk : Dest := fun _ => none

/-- A destination that rejects exactly the issue with key `DEMO-2`. -/
def destFail2 : Dest := fun i => if i.key = "DEMO-2" then some "boom" else none

/-- A server serving one page with two issues (total 2). -/
def srvTwo : Server := fun _ _ => .ok [numberedIssue 1, numberedIssue 2] 2

/-! ## Helper lemmas about `makeRequest` -/

theorem makeRequestGo_of_ok (srv : Server) (sa base n : Nat)
    (issues : List JiraIssue) (total : Nat)
    (h : srv base sa = .ok issues total) :
    makeRequestGo srv sa base n = ⟨.ok (issues, total), [sa], []⟩ := by
  rw [makeRequestGo.eq_def, h]

theorem makeRequest_of_ok (srv : Server) (sa base : Nat)
    (issues : List JiraIssue) (total : Nat)
    (h : srv base sa = .ok issues total) :
    makeRequest srv sa base = ⟨.ok (issues, total), [sa], []⟩ :=
  makeRequestGo_of_ok srv sa base 3 issues total h

theorem makeRequest_of_err (srv : Server) (sa base : Nat) (e : ErrInfo)
    (h : srv base sa = .err e)
    (hn : ¬(e.axiosWithResponse = true ∧ e.status = 429)) :
    makeRequest srv sa base = ⟨.error e, [sa], []⟩ := by
  rw [makeRequest, makeRequestGo.eq_def, h]
  simp only [if_neg hn]

theorem makeRequest_of_429_exhausted (srv : Server) (sa base : Nat)
    (e0 e1 e2 e3 : ErrInfo)
    (h0 : srv base sa = .err e0) (h1 : srv (base + 1) sa = .err e1)
    (h2 : srv (base + 2) sa = .err e2) (h3 : srv (base + 3) sa = .err e3)
    (a0 : e0.axiosWithResponse = true ∧ e0.status = 429)
    (a1 : e1.axiosWithResponse = true ∧ e1.status = 429)
    (a2 : e2.axiosWithResponse = true ∧ e2.status = 429) :
    makeRequest srv sa base =
      ⟨.error e3, [sa, sa, sa, sa],
        [e0.retryAfter.getD 60, e1.retryAfter.getD 60,
          e2.retryAfter.getD 60]⟩ := by
  rw [makeRequest, makeRequestGo.eq_def, h0]
  simp only [if_pos a0]
  rw [makeRequestGo.eq_def, h1]
  simp only [if_pos a1]
  rw [makeRequestGo.eq_def, h2]
  simp only [if_pos a2]
  rw [makeRequestGo.eq_def, h3]

theorem makeRequest_of_429_then_ok (srv : Server) (sa base : Nat)
    (e0 : ErrInfo) (issues : List JiraIssue) (total : Nat)
    (h0 : srv base sa = .err e0)
    (h1 : srv (base + 1) sa = .ok issues total)
    (a0 : e0.axiosWithResponse = true ∧ e0.status = 429) :
    makeRequest srv sa base =
      ⟨.ok (issues, total), [sa, sa], [e0.retryAfter.getD 60]⟩ := by
  rw [makeRequest, makeRequestGo.eq_def, h0]
  simp only [if_pos a0]
  rw [makeRequestGo.eq_def, h1]

/-- A successful `makeRequest` result originated from some actual server
response carrying the same `startAt`. -/
theorem makeRequestGo_ok_src (srv : Server) (sa : Nat) :
    ∀ n base issues total,
      (makeRequestGo srv sa base n).result = .ok (issues, total) →
      ∃ k, srv k sa = .ok issues total := by
  intro n
  induction n with
  | zero =>
    intro base issues total h
    rw [makeRequestGo.eq_def] at h
    split at h
    · rename_i i t hsrv
      simp at h
      exact ⟨base, by rw [hsrv, h.1, h.2]⟩
    · rename_i e np hsrv hm
      exact absurd hm (by omega)
    · rename_i e hsrv hm
      simp at h
  | succ n ih =>
    intro base issues total h
    rw [makeRequestGo.eq_def] at h
    split at h
    · rename_i i t hsrv
      simp at h
      exact ⟨base, by rw [hsrv, h.1, h.2]⟩
    · rename_i e np hsrv hm
      have hnp : np = n := by omega
      subst hnp
      split at h
      · exact ih (base + 1) issues total h
      · simp at h
    · rename_i e hsrv hm
      exact absurd hm (by omega)

/-! ## Helper lemmas about `fetchLoop` -/

theorem fetchLoop_ok_step (srv : Server) (fuel : Nat) (s : LoopState)
    (issues : List JiraIssue) (total : Nat) (offs ws : List Nat)
    (h : makeRequest srv s.startAt s.reqBase = ⟨.ok (issues, total), offs, ws⟩) :
    fetchLoop srv (fuel + 1) s =
      if s.allIssues.length + issues.length < total then
        fetchLoop srv fuel (advanceState s issues total offs ws)
      else
        some ⟨s.allIssues ++ issues, s.requests ++ offs, s.waits ++ ws,
          none⟩ := by
  simp only [fetchLoop, h, advanceState, List.length_append]

theorem fetchLoop_err_step (srv : Server) (fuel : Nat) (s : LoopState)
    (e : ErrInfo) (offs ws : List Nat)
    (h : makeRequest srv s.startAt s.reqBase = ⟨.error e, offs, ws⟩) :
    fetchLoop srv (fuel + 1) s =
      some ⟨s.allIssues, s.requests ++ offs, s.waits ++ ws, some e⟩ := by
  simp only [fetchLoop, h]

/-! ## The run against a faithful server -/

theorem accum_append (gen : Nat → JiraIssue) (a b : Nat) :
    accumIssues gen a ++ (List.range b).map (fun i => gen (a + i)) =
      accumIssues gen (a + b) := by
  simp [accumIssues, List.range_add, Function.comp]

theorem faithfulState_allIssues_length (gen : Nat → JiraIssue) (T k t : Nat) :
    (faithfulState gen T k t).allIssues.length = min (50 * k) T := by
  simp [faithfulState, accumIssues]

theorem faithfulPage_length (gen : Nat → JiraIssue) (T sa : Nat) :
    (faithfulPage gen T sa).length = min 50 (T - sa) := by
  simp [faithfulPage]

theorem faithful_advance (gen : Nat → JiraIssue) (T k t : Nat)
    (hk : 50 * k < T ∨ (k = 0 ∧ T = 0)) :
    advanceState (faithfulState gen T k t) (faithfulPage gen T (50 * k)) T
        [50 * k] [] = faithfulState gen T (k + 1) T := by
  have hmin : min (50 * k) T = 50 * k := by omega
  have hacc : accumIssues gen (50 * k)
      ++ (List.range (min 50 (T - 50 * k))).map (fun i => gen (50 * k + i))
      = accumIssues gen (min (50 * (k + 1)) T) := by
    rw [accum_append]
    congr 1
    omega
  have hreq : (List.range k).map (fun j => 50 * j) ++ [50 * k]
      = (List.range (k + 1)).map (fun j => 50 * j) := by
    rw [List.range_succ, List.map_append]
    rfl
  have hsa : 50 * k + 50 = 50 * (k + 1) := by omega
  simp only [advanceState, faithfulState, faithfulPage, hmin,
    LoopState.mk.injEq, hacc, hreq, hsa]
  simp

/-- Running the fetch loop against a faithful server with total `T` from
the state reached after `k` iterations: with enough fuel it completes with
the first `T` generated issues and one page request per iteration at
offsets `0, 50, ..., 50 * (pageRequestCount T - 1)`. -/
theorem faithful_loop (gen : Nat → JiraIssue) (T : Nat) :
    ∀ fuel k t, (50 * k < T ∨ (k = 0 ∧ T = 0)) →
      T ≤ 50 * (k + fuel + 1) →
      fetchLoop (faithfulServer gen T) (fuel + 1) (faithfulState gen T k t) =
        some (faithfulResult gen T) := by
  intro fuel
  induction fuel using Nat.strong_induction_on with
  | _ fuel ih =>
    intro k t hk hfuel
    have hmin : min (50 * k) T = 50 * k := by omega
    have hsrv : faithfulServer gen T k (50 * k) =
        .ok (faithfulPage gen T (50 * k)) T := rfl
    have hmk := makeRequest_of_ok (faithfulServer gen T) (50 * k) k
      (faithfulPage gen T (50 * k)) T hsrv
    have hstep := fetchLoop_ok_step (faithfulServer gen T) fuel
      (faithfulState gen T k t) (faithfulPage gen T (50 * k)) T
      [50 * k] [] hmk
    rw [faithfulState_allIssues_length, faithfulPage_length] at hstep
    rw [hstep]
    by_cases hlt : min (50 * k) T + min 50 (T - 50 * k) < T
    · rw [if_pos hlt, faithful_advance gen T k t hk]
      match fuel with
      | 0 => exact absurd hlt (by omega)
      | f + 1 =>
        exact ih f (by omega) (k + 1) T (by omega) (by omega)
    · rw [if_neg hlt]
      have hT : 50 * k + min 50 (T - 50 * k) = T := by omega
      have hkT : k + 1 = pageRequestCount T := by
        simp only [pageRequestCount]
        omega
      have hacc : accumIssues gen (50 * k)
          ++ (List.range (min 50 (T - 50 * k))).map
              (fun i => gen (50 * k + i))
          = accumIssues gen T := by
        rw [accum_append, hT]
      have hreq : (List.range k).map (fun j => 50 * j) ++ [50 * k]
          = (List.range (pageRequestCount T)).map (fun j => 50 * j) := by
        rw [← hkT, List.range_succ, List.map_append]
        rfl
      simp only [faithfulState, faithfulResult, faithfulPage, hmin,
        Option.some.injEq, FetchResult.mk.injEq, hacc, hreq]
      simp

/-- The loop never returns `none` for the empty-page server: the adversarial
source that forever reports total 1 while returning empty pages exhausts
any amount of fuel. -/
theorem emptyPages_loop (fuel : Nat) :
    ∀ s : LoopState, s.allIssues = [] →
      fetchLoop emptyPagesServer fuel s = none := by
  induction fuel with
  | zero => intro s _; rfl
  | succ f ih =>
    intro s hs
    have hsrv : emptyPagesServer s.reqBase s.startAt = .ok [] 1 := rfl
    have hmk := makeRequest_of_ok emptyPagesServer s.startAt s.reqBase [] 1 hsrv
    rw [fetchLoop_ok_step emptyPagesServer f s [] 1 [s.startAt] [] hmk]
    rw [if_pos (by simp [hs])]
    exact ih _ (by simp [advanceState, hs])

/-- With a server that always returns a nonempty page and a bounded total,
the loop exits within `B + 1` iterations from a state holding at most `B`
issues. -/
theorem progress_terminates (srv : Server) (B : Nat)
    (hp : ServerProgresses srv B) :
    ∀ fuel s, s.allIssues.length ≤ B → B < fuel + s.allIssues.length →
      (fetchLoop srv fuel s).isSome = true := by
  intro fuel
  induction fuel with
  | zero =>
    intro s h1 h2
    exact absurd h2 (by omega)
  | succ f ih =>
    intro s h1 h2
    rcases hmk : makeRequest srv s.startAt s.reqBase with ⟨res, offs, ws⟩
    cases res with
    | error e =>
      rw [fetchLoop_err_step srv f s e offs ws hmk]
      rfl
    | ok p =>
      rcases p with ⟨issues, total⟩
      have hres : (makeRequestGo srv s.startAt s.reqBase 3).result
          = .ok (issues, total) := by
        have hdef : makeRequest srv s.startAt s.reqBase
            = makeRequestGo srv s.startAt s.reqBase 3 := rfl
        rw [← hdef, hmk]
      obtain ⟨k, hk⟩ :=
        makeRequestGo_ok_src srv s.startAt 3 s.reqBase issues total hres
      obtain ⟨hne, hle⟩ := hp k s.startAt issues total hk
      have hi1 : 1 ≤ issues.length := by
        cases issues with
        | nil => exact absurd rfl hne
        | cons a l => simp
      rw [fetchLoop_ok_step srv f s issues total offs ws hmk]
      by_cases hlt : s.allIssues.length + issues.length < total
      · rw [if_pos hlt]
        apply ih
        · simp only [advanceState, List.length_append]
          omega
        · simp only [advanceState, List.length_append]
          omega
      · rw [if_neg hlt]
        rfl

/-! ## Claim theorems -/

/-- C1, corrected.  Against a faithful server with reported total `T` and
page size 50, the fetch loop (absent errors) issues exactly
`max 1 (ceil(T / 50))` page requests at offsets `0, 50, 100, ...` and
returns exactly `T` records.  For `T = 120` that is 3 requests at offsets
0, 50, 100 returning 120 records; but for `T = 0` the do-while body still
runs once, so the code issues one page request, not the `ceil(0/50) = 0`
requests the claim states. -/
theorem c1_pagination (gen : Nat → JiraIssue) (T fuel : Nat)
    (h : pageRequestCount T ≤ fuel) :
    fetchLoop (faithfulServer gen T) fuel initState =
      some (faithfulResult gen T) ∧
    (faithfulResult gen T).issues.length = T ∧
    (faithfulResult gen T).requests =
      (List.range (pageRequestCount T)).map (fun j => 50 * j) := by
  match fuel with
  | 0 => exact absurd h (by simp only [pageRequestCount]; omega)
  | f + 1 =>
    simp only [pageRequestCount] at h
    refine ⟨?_, by simp [faithfulResult, accumIssues], rfl⟩
    have hinit : initState = faithfulState gen T 0 0 := by
      simp [initState, faithfulState, accumIssues]
    rw [hinit]
    apply faithful_loop
    · rcases Nat.eq_zero_or_pos T with h0 | h0
      · exact Or.inr ⟨rfl, h0⟩
      · exact Or.inl (by omega)
    · omega

/-- Witness for C1 at the spec's example scenario: total 120, page size 50
gives 3 requests at offsets 0, 50, 100 and 120 accumulated records. -/
theorem c1_pagination_witness :
    fetchLoop (faithfulServer numberedIssue 120) 3 initState =
      some (faithfulResult numberedIssue 120) ∧
    (faithfulResult numberedIssue 120).issues.length = 120 ∧
    (faithfulResult numberedIssue 120).requests = [0, 50, 100] := by
  have h := c1_pagination numberedIssue 120 3 (by decide)
  exact ⟨h.1, h.2.1, by rw [h.2.2]; rfl⟩

/-- Counterexample for C1 as stated: with reported total `T = 0` the
do-while loop still issues one page request (that request is how the code
learns the total), whereas the claim's formula `ceil(T/50)` predicts zero
page requests. -/
theorem c1_counterexample :
    fetchLoop (faithfulServer numberedIssue 0) 1 initState =
      some ⟨[], [0], [], none⟩ ∧
    (0 + 49) / 50 = 0 ∧
    ([0] : List Nat).length ≠ (0 + 49) / 50 := by
  exact ⟨by decide, by decide, by decide⟩

/-- C3, corrected.  A non-retryable error (anything but an axios 429 with a
response) on a page request is not retried: the single failing HTTP request
ends the loop at once, the error is caught and logged inside the fetcher
(`loggedError`), and the records accumulated so far are returned as they
are - the caller receives no error signal alongside them. -/
theorem c3_nonretryable_error (srv : Server) (fuel : Nat) (s : LoopState)
    (e : ErrInfo) (herr : srv s.reqBase s.startAt = .err e)
    (hnot : ¬(e.axiosWithResponse = true ∧ e.status = 429)) :
    fetchLoop srv (fuel + 1) s =
      some ⟨s.allIssues, s.requests ++ [s.startAt], s.waits, some e⟩ := by
  have hmk := makeRequest_of_err srv s.startAt s.reqBase e herr hnot
  have hstep := fetchLoop_err_step srv fuel s e [s.startAt] [] hmk
  simpa using hstep

/-- Witness for C3: a server failing with a 500 on its first page makes the
fetch end after that one request with an empty accumulator and the logged
error. -/
theorem c3_nonretryable_error_witness :
    fetchLoop (fun _ _ => JiraResp.err err500) 1 initState =
      some ⟨[], [0], [], some err500⟩ := by
  have h := c3_nonretryable_error (fun _ _ => JiraResp.err err500) 0
    initState err500 rfl (by decide)
  simpa [initState] using h

/-- Counterexample for C3 as stated: the claim says the fetcher returns the
accumulated records *paired with an error signal*.  It does not: the
function returns only the issue list, so a run that dies on its second page
(`errSrv`, after one page of one issue out of a reported total of 2) is
indistinguishable, in the value returned to the caller, from a clean
complete run (`cleanSrv`).  The error exists only in the console log that
the fetcher swallows. -/
theorem c3_counterexample :
    getIssuesUpdatedLast24Hours errSrv 5
      = getIssuesUpdatedLast24Hours cleanSrv 5 ∧
    fetchLoop errSrv 5 initState =
      some ⟨[numberedIssue 1], [0, 50], [], some err500⟩ ∧
    fetchLoop cleanSrv 5 initState =
      some ⟨[numberedIssue 1], [0], [], none⟩ := by
  exact ⟨by decide, by decide, by decide⟩

/-- C4, corrected.  On a 429 the code reads the `retry-after` header
(default 60 seconds when absent), sleeps that long, and retries the same
page (same `startAt`), up to 3 retries - 4 HTTP attempts in total; a 429
followed by a success returns the page after one wait.  Once retries are
exhausted the last 429 error is thrown out of `makeRequest`, which is fatal
for the whole fetch, but it is caught and logged by the fetch loop's own
catch block: the fetcher returns the records accumulated so far and the
run proceeds - the failure does not propagate to the top level. -/
theorem c4_rate_limit_retry (srv : Server) (s : LoopState) (fuel : Nat)
    (e0 e1 e2 e3 : ErrInfo)
    (h0 : srv s.reqBase s.startAt = .err e0)
    (h1 : srv (s.reqBase + 1) s.startAt = .err e1)
    (h2 : srv (s.reqBase + 2) s.startAt = .err e2)
    (h3 : srv (s.reqBase + 3) s.startAt = .err e3)
    (a0 : e0.axiosWithResponse = true ∧ e0.status = 429)
    (a1 : e1.axiosWithResponse = true ∧ e1.status = 429)
    (a2 : e2.axiosWithResponse = true ∧ e2.status = 429)
    (srv2 : Server) (sa2 base2 : Nat) (e4 : ErrInfo)
    (issues : List JiraIssue) (total : Nat)
    (h4 : srv2 base2 sa2 = .err e4)
    (h5 : srv2 (base2 + 1) sa2 = .ok issues total)
    (a4 : e4.axiosWithResponse = true ∧ e4.status = 429) :
    fetchLoop srv (fuel + 1) s =
      some ⟨s.allIssues,
        s.requests ++ [s.startAt, s.startAt, s.startAt, s.startAt],
        s.waits ++ [e0.retryAfter.getD 60, e1.retryAfter.getD 60,
          e2.retryAfter.getD 60], some e3⟩ ∧
    makeRequest srv2 sa2 base2 =
      ⟨.ok (issues, total), [sa2, sa2], [e4.retryAfter.getD 60]⟩ := by
  constructor
  · exact fetchLoop_err_step srv fuel s e3 _ _
      (makeRequest_of_429_exhausted srv s.startAt s.reqBase e0 e1 e2 e3
        h0 h1 h2 h3 a0 a1 a2)
  · exact makeRequest_of_429_then_ok srv2 sa2 base2 e4 issues total h4 h5 a4

/-- Witness for C4: a server that always answers 429 without a
`retry-after` header produces 4 same-offset attempts and three 60-second
waits before the fetch gives up; a single 429 with `retry-after: 2`
followed by a success retries once after 2 seconds. -/
theorem c4_rate_limit_retry_witness :
    fetchLoop srv429 1 initState =
      some ⟨[], [0, 0, 0, 0], [60, 60, 60], some err429⟩ ∧
    makeRequest srv429Once 0 0 =
      ⟨.ok ([numberedIssue 7], 1), [0, 0], [2]⟩ := by
  have h := c4_rate_limit_retry srv429 initState 0 err429 err429 err429
    err429 rfl rfl rfl rfl (by decide) (by decide) (by decide)
    srv429Once 0 0 ⟨true, 429, some 2⟩ [numberedIssue 7] 1 rfl rfl (by decide)
  simpa [initState, err429] using h

/-- Counterexample for C4 as stated: the claim says retry exhaustion
"propagates to the top level where it is reported as run failure".  With a
server that always answers 429, the fetch swallows the exhausted error
(returning zero issues) and `main` reports
`All issues processed successfully.` - no run failure is reported.  The
four same-offset requests also show the code makes 4 attempts (1 initial +
3 retries) per page. -/
theorem c4_counterexample :
    fetchLoop srv429 1 initState =
      some ⟨[], [0, 0, 0, 0], [60, 60, 60], some err429⟩ ∧
    (mainRun srv429 destOk 1).console =
      ["Found 0 issues updated in the last 24 hours.",
        "All issues processed successfully."] := by
  exact ⟨by decide, by decide⟩

/-- C10, confirmed.  The loop's termination is conditional: (1) against the
server that forever reports total 1 while returning empty pages, every
fuel amount is exhausted (the do-while never exits); (2) if every
successful response carries at least one issue and a total bounded by `B`,
the loop exits within `B + 1` iterations; (3) the offset advances by the
fixed page size 50 regardless of page length - a server returning
single-issue pages for total 3 is paged at offsets 0, 50, 100. -/
theorem c10_conditional_termination :
    (∀ fuel, fetchLoop emptyPagesServer fuel initState = none) ∧
    (∀ srv B fuel s, ServerProgresses srv B →
      s.allIssues.length ≤ B → B < fuel + s.allIssues.length →
      (fetchLoop srv fuel s).isSome = true) ∧
    fetchLoop shortPagesServer 9 initState =
      some ⟨[numberedIssue 0, numberedIssue 1, numberedIssue 2],
        [0, 50, 100], [], none⟩ := by
  exact ⟨fun fuel => emptyPages_loop fuel initState rfl,
    fun srv B fuel s hp => progress_terminates srv B hp fuel s,
    by decide⟩

/-- Witness for C10: the termination half applied to the one-page
single-issue server with bound 1 and fuel 2, and the divergence half at
fuel 7. -/
theorem c10_conditional_termination_witness :
    (fetchLoop cleanSrv 2 initState).isSome = true ∧
    fetchLoop emptyPagesServer 7 initState = none := by
  have hp : ServerProgresses cleanSrv 1 := by
    intro k sa issues total h
    simp only [cleanSrv] at h
    injection h with hi ht
    refine ⟨?_, by omega⟩
    rw [← hi]
    simp
  exact ⟨c10_conditional_termination.2.1 cleanSrv 1 2 initState hp
      (by simp [initState]) (by simp [initState]),
    c10_conditional_termination.1 7⟩

/-- C2, corrected.  A failing upsert is caught and logged locally with its
issue key, but then rethrown (`throw error`), so the per-delivery fault
escapes the sink: its task rejects, every scheduled delivery still resolves
(the outcome list covers all fetched issues), and `main`'s `Promise.all`
turns the first rejection into an aggregate rejection whose catch logs the
generic `An error occurred:` - no error count is surfaced anywhere in the
run's report. -/
theorem c2_delivery_fault_handling (dest : Dest) (issue : JiraIssue)
    (msg : String) (hfail : dest issue = some msg)
    (srv : Server) (fuel : Nat) (fr : FetchResult)
    (hf : fetchLoop srv fuel initState = some fr)
    (hmem : issue ∈ fr.issues) :
    (upsertToDustDatasource dest issue).result = .error msg ∧
    (upsertToDustDatasource dest issue).console =
      ["Error upserting issue " ++ issue.key ++ " to Dust datasource:"] ∧
    (mainRun srv dest fuel).outcomes.length = fr.issues.length ∧
    (mainRun srv dest fuel).console.getLast? = some "An error occurred:" := by
  have hup : upsertToDustDatasource dest issue =
      ⟨.error msg,
        ["Error upserting issue " ++ issue.key ++ " to Dust datasource:"],
        [(documentId issue, content issue)]⟩ := by
    simp [upsertToDustDatasource, hfail]
  have hany : (runDeliveries dest fr.issues).any
      (fun o => !taskOk o.result) = true := by
    rw [List.any_eq_true]
    refine ⟨upsertToDustDatasource dest issue,
      List.mem_map_of_mem _ hmem, ?_⟩
    rw [hup]
    rfl
  refine ⟨by rw [hup], by rw [hup], ?_, ?_⟩
  · simp [mainRun, hf, runDeliveries]
  · simp only [mainRun, hf, hany, if_true]
    exact List.getLast?_concat _

/-- Witness for C2 on a concrete two-issue run whose second delivery
rejects. -/
theorem c2_delivery_fault_handling_witness :
    (upsertToDustDatasource destFail2 (numberedIssue 2)).result
      = Except.error "boom" ∧
    (mainRun srvTwo destFail2 2).outcomes.length = 2 ∧
    (mainRun srvTwo destFail2 2).console.getLast?
      = some "An error occurred:" := by
  have h := c2_delivery_fault_handling destFail2 (numberedIssue 2) "boom"
    (by decide) srvTwo 2 ⟨[numberedIssue 1, numberedIssue 2], [0], [], none⟩
    (by decide) (by decide)
  exact ⟨h.1, by rw [h.2.2.1]; decide, h.2.2.2⟩

/-- Counterexample for C2 as stated: the claim says a delivery fault "is
never propagated past the sink" and that "the error count is surfaced in
the run's report".  On a run of two issues where the second upsert rejects,
the upsert's own result is the rethrown error (it escapes the sink), and
the whole console report carries no count of failures - only the generic
top-level `An error occurred:` from the aggregate rejection, in place of
the success line. -/
theorem c2_counterexample :
    (upsertToDustDatasource destFail2 (numberedIssue 2)).result
      = Except.error "boom" ∧
    (mainRun srvTwo destFail2 2).console =
      ["Found 2 issues updated in the last 24 hours.",
        "Upserted issue DEMO-1 to Dust datasource",
        "Error upserting issue DEMO-2 to Dust datasource:",
        "An error occurred:"] := by
  exact ⟨by decide, by decide⟩

/-- C5, confirmed.  Deliveries are isolated: when exactly one scheduled
delivery's destination call rejects, the other `N - 1` all still execute
(each non-rejecting issue's upsert resolves with `ok`, logs its success
line, and appears among the run's outcomes), so the run reports `N - 1`
successes. -/
theorem c5_isolation (dest : Dest) (issues : List JiraIssue)
    (hone : issues.countP (fun i => (dest i).isSome) = 1) :
    (runDeliveries dest issues).countP (fun o => taskOk o.result)
      = issues.length - 1 ∧
    ∀ i ∈ issues, dest i = none →
      (upsertToDustDatasource dest i).result = .ok () ∧
      (upsertToDustDatasource dest i).console =
        ["Upserted issue " ++ i.key ++ " to Dust datasource"] ∧
      upsertToDustDatasource dest i ∈ runDeliveries dest issues := by
  constructor
  · rw [runDeliveries, List.countP_map]
    have hcong : issues.countP
        ((fun o => taskOk o.result) ∘ upsertToDustDatasource dest)
        = issues.countP (fun i => (dest i).isNone) := by
      apply List.countP_congr
      intro i _
      cases hd : dest i <;>
        simp [Function.comp, upsertToDustDatasource, taskOk, hd]
    rw [hcong]
    have hsplit := List.length_eq_countP_add_countP
      (fun i => (dest i).isSome) issues
    have hcong2 : issues.countP
        (fun a => decide ¬((dest a).isSome = true))
        = issues.countP (fun i => (dest i).isNone) := by
      apply List.countP_congr
      intro i _
      cases hd : dest i <;> simp [hd]
    rw [hcong2] at hsplit
    omega
  · intro i _ hnone
    refine ⟨by simp [upsertToDustDatasource, hnone], ?_, ?_⟩
    · simp [upsertToDustDatasource, hnone]
    · exact List.mem_map_of_mem _ (by assumption)

/-- Witness for C5: three scheduled deliveries of which exactly the second
rejects; the other two both resolve successfully. -/
theorem c5_isolation_witness :
    (runDeliveries destFail2
        [numberedIssue 1, numberedIssue 2, numberedIssue 3]).countP
      (fun o => taskOk o.result) = 2 ∧
    (upsertToDustDatasource destFail2 (numberedIssue 1)).result = .ok () ∧
    (upsertToDustDatasource destFail2 (numberedIssue 3)).result = .ok () := by
  have h := c5_isolation destFail2
    [numberedIssue 1, numberedIssue 2, numberedIssue 3] (by decide)
  exact ⟨by rw [h.1]; decide,
    (h.2 (numberedIssue 1) (by decide) (by decide)).1,
    (h.2 (numberedIssue 3) (by decide) (by decide)).1⟩

/-- C7, confirmed.  The destination document identifier is
`issue- ++ key`, a pure function of the record's key alone: two issues
sharing a key target the same document, and the single POST an upsert
makes targets exactly that identifier. -/
theorem c7_document_id (dest : Dest) (i1 i2 : JiraIssue)
    (h : i1.key = i2.key) :
    documentId i1 = "issue-" ++ i1.key ∧
    documentId i1 = documentId i2 ∧
    (upsertToDustDatasource dest i1).posts.map Prod.fst
      = [documentId i1] := by
  refine ⟨rfl, by simp [documentId, h], ?_⟩
  cases hd : dest i1 <;> simp [upsertToDustDatasource, hd]

/-- Witness for C7 on two distinct issues sharing the key `PROJ-7`. -/
theorem c7_document_id_witness :
    documentId (mkSimpleIssue "PROJ-7") = "issue-PROJ-7" ∧
    documentId (mkSimpleIssue "PROJ-7")
      = documentId { mkSimpleIssue "PROJ-7" with id := "different" } ∧
    (upsertToDustDatasource destOk (mkSimpleIssue "PROJ-7")).posts.map
      Prod.fst = [documentId (mkSimpleIssue "PROJ-7")] := by
  have h := c7_document_id destOk (mkSimpleIssue "PROJ-7")
    { mkSimpleIssue "PROJ-7" with id := "different" } rfl
  exact ⟨h.1.trans rfl, h.2.1, h.2.2⟩

/-! ## Rate-limiter window bound -/

/-- In a chain whose consecutive elements are at least `m` apart, every
element after the head is at least `m` above the head. -/
theorem chain_ge (m : Nat) :
    ∀ (l : List Nat) (a : Nat),
      List.Chain' (fun x y => x + m ≤ y) (a :: l) →
      ∀ s ∈ l, a + m ≤ s := by
  intro l
  induction l with
  | nil =>
    intro a _ s hs
    simp at hs
  | cons b rest ih =>
    intro a hchain s hs
    rw [List.chain'_cons] at hchain
    rcases List.mem_cons.mp hs with rfl | hs
    · exact hchain.1
    · have := ih b hchain.2 s hs
      omega

/-- At most `k` elements of an `m`-spaced chain lying entirely at or above
`t0` can be below `t0 + m * k`. -/
theorem spaced_count_lt (m : Nat) :
    ∀ (k : Nat) (l : List Nat) (t0 : Nat),
      List.Chain' (fun x y => x + m ≤ y) l → (∀ s ∈ l, t0 ≤ s) →
      l.countP (fun s => decide (s < t0 + m * k)) ≤ k := by
  intro k
  induction k with
  | zero =>
    intro l t0 _ hge
    have hz : l.countP (fun s => decide (s < t0 + m * 0)) = 0 := by
      rw [List.countP_eq_zero]
      intro s hs
      have := hge s hs
      simp
      omega
    omega
  | succ k ih =>
    intro l t0 hchain hge
    cases l with
    | nil => simp
    | cons a rest =>
      rw [List.countP_cons]
      have hge_rest := chain_ge m rest a hchain
      have h1 := ih rest (a + m) hchain.tail hge_rest
      have hta : t0 ≤ a := hge a (List.mem_cons_self a rest)
      have hmono : rest.countP (fun s => decide (s < t0 + m * (k + 1)))
          ≤ rest.countP (fun s => decide (s < a + m + m * k)) := by
        apply List.countP_mono_left
        intro x _ hpx
        simp only [decide_eq_true_eq] at hpx ⊢
        rw [Nat.mul_succ] at hpx
        omega
      have hite : (if decide (a < t0 + m * (k + 1)) = true then 1 else 0)
          ≤ 1 := by
        split <;> omega
      omega

/-- Any half-open window of length `m * bound` contains at most `bound`
launches of an `m`-spaced launch sequence. -/
theorem spaced_window (m bound : Nat) :
    ∀ (l : List Nat) (t : Nat),
      List.Chain' (fun x y => x + m ≤ y) l →
      l.countP (fun s => decide (t ≤ s) && decide (s < t + m * bound))
        ≤ bound := by
  intro l
  induction l with
  | nil =>
    intro t _
    simp
  | cons a rest ih =>
    intro t hchain
    rw [List.countP_cons]
    by_cases hin : t ≤ a ∧ a < t + m * bound
    · cases bound with
      | zero =>
        rcases hin with ⟨hin1, hin2⟩
        rw [Nat.mul_zero] at hin2
        exact absurd hin1 (by omega)
      | succ b =>
        have hge_rest := chain_ge m rest a hchain
        have h1 := spaced_count_lt m b rest (a + m) hchain.tail hge_rest
        have hmono : rest.countP
            (fun s => decide (t ≤ s) && decide (s < t + m * (b + 1)))
            ≤ rest.countP (fun s => decide (s < a + m + m * b)) := by
          apply List.countP_mono_left
          intro x _ hpx
          simp only [Bool.and_eq_true, decide_eq_true_eq] at hpx ⊢
          rw [Nat.mul_succ] at hpx
          omega
        have hite : (if (decide (t ≤ a)
            && decide (a < t + m * (b + 1))) = true then 1 else 0) ≤ 1 := by
          split <;> omega
        omega
    · have h0 : (decide (t ≤ a) && decide (a < t + m * bound)) = false := by
        by_contra hb
        rw [Bool.not_eq_false, Bool.and_eq_true, decide_eq_true_eq,
          decide_eq_true_eq] at hb
        exact hin hb
      rw [h0]
      simpa using ih t hchain.tail

/-- C8, confirmed with the limiter modelled from the spec (Bottleneck is an
external library, not part of `src/`).  Under any launch schedule
admissible for `maxConcurrent = 120, minTime = 500 ms`, every 60-second
window contains at most 120 delivery launches and at most 120 deliveries
are in flight at any instant; and from the repository's own code, `main`
schedules exactly one task per fetched issue and each task POSTs its
document exactly once - no automatic retry of a failed delivery. -/
theorem c8_sink_ceiling (starts durs : List Nat) (t : Nat)
    (h : Admissible DUST_RATE_LIMIT limiterMinTime starts durs)
    (dest : Dest) (issues : List JiraIssue) :
    starts.countP (fun s => decide (t ≤ s) && decide (s < t + 60000))
      ≤ DUST_RATE_LIMIT ∧
    inFlightAt starts durs t ≤ DUST_RATE_LIMIT ∧
    (runDeliveries dest issues).length = issues.length ∧
    ∀ o ∈ runDeliveries dest issues, o.posts.length = 1 := by
  refine ⟨?_, h.2 t, by simp [runDeliveries], ?_⟩
  · have hb := spaced_window limiterMinTime DUST_RATE_LIMIT starts t h.1
    have hval : limiterMinTime * DUST_RATE_LIMIT = 60000 := by decide
    rwa [hval] at hb
  · intro o ho
    rw [runDeliveries] at ho
    obtain ⟨i, _, rfl⟩ := List.mem_map.mp ho
    cases hd : dest i <;> simp [upsertToDustDatasource, hd]

/-- Witness for C8: a two-task schedule launching at 0 ms and 500 ms with
100 ms durations is admissible, and a two-issue delivery run makes exactly
one POST per issue. -/
theorem c8_sink_ceiling_witness :
    [0, 500].countP (fun s => decide (5 ≤ s) && decide (s < 5 + 60000))
      ≤ DUST_RATE_LIMIT ∧
    inFlightAt [0, 500] [100, 100] 5 ≤ DUST_RATE_LIMIT ∧
    (runDeliveries destOk [numberedIssue 1, numberedIssue 2]).length = 2 ∧
    (upsertToDustDatasource destOk (numberedIssue 1)).posts.length = 1 := by
  have hadm : Admissible DUST_RATE_LIMIT limiterMinTime
      [0, 500] [100, 100] := by
    constructor
    · exact List.chain'_cons.mpr ⟨by decide, List.chain'_singleton 500⟩
    · intro t
      have h1 : inFlightAt [0, 500] [100, 100] t
          ≤ ([0, 500].zip [100, 100]).length := List.countP_le_length _
      have h2 : ([0, 500].zip [100, 100]).length ≤ DUST_RATE_LIMIT := by
        decide
      omega
  have h := c8_sink_ceiling [0, 500] [100, 100] 5 hadm destOk
    [numberedIssue 1, numberedIssue 2]
  exact ⟨h.1, h.2.1, h.2.2.1,
    h.2.2.2 (upsertToDustDatasource destOk (numberedIssue 1))
      (List.mem_map_of_mem _ (by decide))⟩

/-- C6, confirmed.  Formatting is total on records with absent optional
fields: a null assignee renders `Assignee: Unassigned`, a null resolution
renders `Resolution: Unresolved`, null resolutiondate/sprint/epic render
`N/A`, and empty collections render as empty strings on their fixed
template line rather than an omitted line; being a total function, the
formatter raises no exception.  The final `content` is these fixed lines
joined by newlines and trimmed. -/
theorem c6_formatting_total (issue : JiraIssue)
    (ha : issue.fields.assignee = none)
    (hr : issue.fields.resolution = none)
    (hrd : issue.fields.resolutiondate = none)
    (hsp : issue.fields.sprint = none)
    (hep : issue.fields.epic = none)
    (hla : issue.fields.labels = [])
    (hco : issue.fields.components = [])
    (hfx : issue.fields.fixVersions = [])
    (hvs : issue.fields.versions = [])
    (hsu : issue.fields.subtasks = [])
    (hli : issue.fields.issuelinks = [])
    (hat : issue.fields.attachment = []) :
    "Assignee: Unassigned" ∈ contentLines issue ∧
    "Resolution: Unresolved" ∈ contentLines issue ∧
    "Resolution Date: N/A" ∈ contentLines issue ∧
    "Sprint: N/A" ∈ contentLines issue ∧
    "Epic: N/A" ∈ contentLines issue ∧
    "Labels: " ∈ contentLines issue ∧
    "Components: " ∈ contentLines issue ∧
    "Fix Versions: " ∈ contentLines issue ∧
    "Affected Versions: " ∈ contentLines issue ∧
    "Subtasks: " ∈ contentLines issue ∧
    "Issue Links: " ∈ contentLines issue ∧
    "Attachments: " ∈ contentLines issue ∧
    content issue = (String.intercalate "\n" (contentLines issue)).trim := by
  refine ⟨?_, ?_, ?_, ?_, ?_, ?_, ?_, ?_, ?_, ?_, ?_, ?_, rfl⟩ <;>
    simp [contentLines, assigneeText, resolutionText, nameOrNA, jsStrOrNA,
      ha, hr, hrd, hsp, hep, hla, hco, hfx, hvs, hsu, hli, hat,
      String.intercalate]

/-- Witness for C6 on the concrete all-optional-absent issue. -/
theorem c6_formatting_total_witness :
    "Assignee: Unassigned" ∈ contentLines (mkSimpleIssue "DEMO-6") ∧
    "Resolution: Unresolved" ∈ contentLines (mkSimpleIssue "DEMO-6") ∧
    "Labels: " ∈ contentLines (mkSimpleIssue "DEMO-6") ∧
    content (mkSimpleIssue "DEMO-6")
      = (String.intercalate "\n"
          (contentLines (mkSimpleIssue "DEMO-6"))).trim := by
  have h := c6_formatting_total (mkSimpleIssue "DEMO-6")
    rfl rfl rfl rfl rfl rfl rfl rfl rfl rfl rfl rfl
  exact ⟨h.1, h.2.1, h.2.2.2.2.2.1, h.2.2.2.2.2.2.2.2.2.2.2.2⟩

/-- C9, confirmed.  The time-tracking lines use JavaScript falsy
coalescing (`|| "N/A"`), which conflates the number 0 with null: a record
whose three time fields are all 0 renders `N/A` on each line, and its
whole rendered line set is identical to that of the same record with the
fields absent. -/
theorem c9_zero_time_renders_na (issue : JiraIssue)
    (h1 : issue.fields.timeoriginalestimate = some 0)
    (h2 : issue.fields.timeestimate = some 0)
    (h3 : issue.fields.timespent = some 0) :
    "  Original Estimate: N/A" ∈ contentLines issue ∧
    "  Remaining Estimate: N/A" ∈ contentLines issue ∧
    "  Time Spent: N/A" ∈ contentLines issue ∧
    jsNumOrNA (some 0) = jsNumOrNA none ∧
    contentLines issue = contentLines { issue with fields :=
      { issue.fields with
          timeoriginalestimate := none
          timeestimate := none
          timespent := none } } := by
  refine ⟨?_, ?_, ?_, rfl, ?_⟩ <;>
    simp [contentLines, jsNumOrNA, h1, h2, h3]

/-- Witness for C9: a record with all three time fields equal to 0. -/
theorem c9_zero_time_renders_na_witness :
    "  Original Estimate: N/A" ∈ contentLines
      { mkSimpleIssue "DEMO-9" with fields :=
        { (mkSimpleIssue "DEMO-9").fields with
            timeoriginalestimate := some 0
            timeestimate := some 0
            timespent := some 0 } } ∧
    jsNumOrNA (some 0) = jsNumOrNA none := by
  have h := c9_zero_time_renders_na
    { mkSimpleIssue "DEMO-9" with fields :=
      { (mkSimpleIssue "DEMO-9").fields with
          timeoriginalestimate := some 0
          timeestimate := some 0
          timespent := some 0 } } rfl rfl rfl
  exact ⟨h.1, h.2.2.2.1⟩

end JiraToDust
